import Mathlib

/-!
Shallow embedding of the Notify repository (src/App.tsx, src/unnamed/part_001
= constants.ts).  The React component's state (`permission`, `isRunning`,
`logs`, `vibrationKey`) and refs (`intervalRef`, `vibrationPatternRef`) become
fields of `AppState`; platform side effects (showNotification, new
Notification, navigator.vibrate) become an explicit `Effect` list; the live
platform interval timers become an explicit `activeTimers` list so that
"exactly one periodic task" is statable.  Nondeterministic platform inputs of
one delivery cycle (Math.random(), Date.now(), toLocaleTimeString(),
serviceWorker availability, whether the delivery call throws, whether
navigator.vibrate exists) are bundled in `CycleInput`.
-/

namespace Notify

/-- `NotificationContent` from src/unnamed/part_001 (constants.ts). -/
structure NotificationContent where
  title : String
  body : String
  icon : Option String
deriving DecidableEq, Repr

/-- The `NOTIFICATION_MESSAGES` catalog from src/unnamed/part_001. -/
def NOTIFICATION_MESSAGES : List NotificationContent := [
  ⟨"Hello there!", "Just checking in on you.", some "👋"⟩,
  ⟨"Drink Water", "Stay hydrated throughout the day!", some "💧"⟩,
  ⟨"Alert!", "This is a random simulated alert.", some "🚨"⟩,
  ⟨"Did you know?", "Honey never spoils.", some "🍯"⟩,
  ⟨"Reminder", "Take a deep breath.", some "🧘"⟩,
  ⟨"New Message", "You have 1 new random message.", some "📩"⟩,
  ⟨"Focus", "Time to get back to work!", some "🎯"⟩,
  ⟨"System Update", "Just kidding, everything is fine.", some "⚙️"⟩,
  ⟨"Look out!", "A wild notification appeared.", some "👀"⟩,
  ⟨"Code", "Review your latest commit.", some "💻"⟩,
  ⟨"Music", "Time to listen to some tunes?", some "🎵"⟩,
  ⟨"Weather", "It might be sunny somewhere.", some "☀️"⟩]

/-- One entry of the `VIBRATION_PATTERNS` record in src/App.tsx. -/
structure VibrationConfig where
  label : String
  pattern : List Nat
deriving DecidableEq, Repr

/-- The `VIBRATION_PATTERNS` record from src/App.tsx.  A JS record lookup
`VIBRATION_PATTERNS[key]` yields `undefined` for a missing key, embedded as
`Option`. -/
def VIBRATION_PATTERNS (key : String) : Option VibrationConfig :=
  if key = "default" then some ⟨"Default (3 Pulses)", [200, 100, 200, 100, 200]⟩
  else if key = "short" then some ⟨"Short & Sharp", [100, 50, 100]⟩
  else if key = "heartbeat" then some ⟨"Heartbeat", [100, 100, 100, 400, 100, 100, 100]⟩
  else if key = "urgent" then some ⟨"Urgent", [50, 50, 50, 50, 50, 50, 50, 50, 50, 50]⟩
  else if key = "long" then some ⟨"Long Buzz", [1000]⟩
  else if key = "slow" then some ⟨"Slow Pulse", [500, 500, 500]⟩
  else none

/-- The browser `NotificationPermission` enum: "default" (unrequested),
"granted", "denied". -/
inductive NotificationPermission where
  | default
  | granted
  | denied
deriving DecidableEq, Repr

/-- One element of the `logs` state array in src/App.tsx:
`{ id: number; message: string; time: string }`. -/
structure LogEntry where
  id : Nat
  message : String
  time : String
deriving DecidableEq, Repr

/-- A live platform interval timer (result of `window.setInterval`). -/
structure Timer where
  id : Nat
  periodMs : Nat
deriving DecidableEq, Repr

/-- The interval period passed to `window.setInterval` in src/App.tsx. -/
def INTERVAL_MS : Nat := 2000

/-- The component state of src/App.tsx: React state hooks (`permission`,
`isRunning`, `logs`, `vibrationKey`), the refs (`intervalRef`,
`vibrationPatternRef`), plus the platform's live interval timers
(`activeTimers`), made explicit so cancellation is observable. -/
structure AppState where
  permission : NotificationPermission
  isRunning : Bool
  logs : List LogEntry
  vibrationKey : String
  intervalRef : Option Nat
  vibrationPatternRef : List Nat
  activeTimers : List Timer
deriving DecidableEq, Repr

/-- The initial component state: `useState` initializers of src/App.tsx.
`vibrationPatternRef` starts as `VIBRATION_PATTERNS['default'].pattern`. -/
def initialState : AppState :=
  { permission := .default
    isRunning := false
    logs := []
    vibrationKey := "default"
    intervalRef := none
    vibrationPatternRef := ((VIBRATION_PATTERNS "default").getD ⟨"", []⟩).pattern
    activeTimers := [] }

/-- The options object built in `sendRandomNotification` (src/App.tsx). -/
structure NotificationOptions where
  body : String
  icon : Option String
  vibrate : List Nat
  tag : String
  renotify : Bool
  requireInteraction : Bool
  silent : Bool
deriving DecidableEq, Repr

/-- Observable platform side effects of the handlers in src/App.tsx. -/
inductive Effect where
  | swShow (title : String) (options : NotificationOptions)
  | pageNew (title : String) (options : NotificationOptions)
  | vibrate (pattern : List Nat)
deriving DecidableEq, Repr

/-- A delivery attempt is a notification creation (`new Notification`) or a
show-notification request (`registration.showNotification`); a bare
`navigator.vibrate` call is not one. -/
def Effect.isDeliveryAttempt : Effect → Bool
  | .swShow _ _ => true
  | .pageNew _ _ => true
  | .vibrate _ => false

/-- Platform inputs consumed by one run of `sendRandomNotification`. -/
structure CycleInput where
  rand : ℚ
  nowId : Nat
  nowTime : String
  swAvailable : Bool
  deliveryThrows : Bool
  canVibrate : Bool
deriving DecidableEq, Repr

/-- `Math.floor(Math.random() * NOTIFICATION_MESSAGES.length)` for a random
sample `r ∈ [0,1)` (src/App.tsx line 54). -/
def pickIdx (r : ℚ) : ℤ := ⌊r * (NOTIFICATION_MESSAGES.length : ℚ)⌋

/-- `NOTIFICATION_MESSAGES[randomIdx]` (total via `getD`; the JS index is
always in range because `Math.random()` lies in `[0,1)`). -/
def pickedContent (r : ℚ) : NotificationContent :=
  NOTIFICATION_MESSAGES.getD (pickIdx r).toNat ⟨"", "", none⟩

/-- The log entry `sendRandomNotification` prepends:
`{ id: Date.now(), message: title + ": " + body, time: now.toLocaleTimeString() }`. -/
def mkLogEntry (inp : CycleInput) : LogEntry :=
  { id := inp.nowId
    message := (pickedContent inp.rand).title ++ ": " ++ (pickedContent inp.rand).body
    time := inp.nowTime }

/-- Values `sendRandomNotification` reads synchronously at its start, before
any `await`: the picked content and `vibrationPatternRef.current`. -/
structure CycleSnapshot where
  content : NotificationContent
  currentPattern : List Nat
deriving DecidableEq, Repr

/-- The synchronous head of `sendRandomNotification` (src/App.tsx lines
53-67): pick a random catalog entry, read the current vibration pattern, and
prepend the log entry (`[newEntry, ...prev.slice(0, 49)]`). -/
def cycleBegin (s : AppState) (inp : CycleInput) : AppState × CycleSnapshot :=
  ({ s with logs := mkLogEntry inp :: s.logs.take 49 },
   ⟨pickedContent inp.rand, s.vibrationPatternRef⟩)

/-- The `options` object of src/App.tsx lines 74-82. -/
def buildOptions (content : NotificationContent) (pattern : List Nat) :
    NotificationOptions :=
  { body := content.body
    icon := content.icon
    vibrate := pattern
    tag := "random-notify"
    renotify := true
    requireInteraction := true
    silent := false }

/-- The delivery tail of `sendRandomNotification` (src/App.tsx lines 69-107):
return early unless `Notification.permission === 'granted'`; otherwise show
via the service worker when available, else `new Notification`; if the call
throws, the catch swallows it and the trailing `navigator.vibrate` is
skipped. -/
def cycleFinish (s : AppState) (snap : CycleSnapshot) (inp : CycleInput) :
    List Effect :=
  if s.permission = .granted then
    let options := buildOptions snap.content snap.currentPattern
    let attempt := if inp.swAvailable then Effect.swShow snap.content.title options
                   else Effect.pageNew snap.content.title options
    if inp.deliveryThrows then [attempt]
    else attempt ::
      (if inp.canVibrate then [Effect.vibrate snap.currentPattern] else [])
  else []

/-- `sendRandomNotification` (src/App.tsx lines 53-108): the synchronous head
followed by the permission-gated delivery tail. -/
def sendRandomNotification (s : AppState) (inp : CycleInput) :
    AppState × List Effect :=
  let (s1, snap) := cycleBegin s inp
  (s1, cycleFinish s1 snap inp)

/-- `window.clearInterval(id)`: the timer with that id stops firing. -/
def clearInterval (timers : List Timer) (id : Nat) : List Timer :=
  timers.filter (fun t => t.id != id)

/-- `startNotifications` (src/App.tsx lines 110-124): set `isRunning`, clear
any existing interval, run one cycle immediately, then
`setInterval(sendRandomNotification, 2000)` yielding a fresh timer id. -/
def startNotifications (s : AppState) (inp : CycleInput) (freshId : Nat) :
    AppState × List Effect :=
  let s1 := { s with isRunning := true }
  let s2 := match s1.intervalRef with
            | some id => { s1 with activeTimers := clearInterval s1.activeTimers id }
            | none => s1
  let (s3, effs) := sendRandomNotification s2 inp
  ({ s3 with intervalRef := some freshId
             activeTimers := s3.activeTimers ++ [⟨freshId, INTERVAL_MS⟩] }, effs)

/-- `stopNotifications` (src/App.tsx lines 126-132): clear `isRunning`; if an
interval is registered, cancel it and null the ref. -/
def stopNotifications (s : AppState) : AppState :=
  let s1 := { s with isRunning := false }
  match s1.intervalRef with
  | some id => { s1 with activeTimers := clearInterval s1.activeTimers id
                         intervalRef := none }
  | none => s1

/-- `handleVibrationChange` (src/App.tsx lines 42-51).  `setVibrationKey(key)`
runs first; then `VIBRATION_PATTERNS[key].pattern` faults (TypeError on
`undefined`) when the key is missing — the Bool records whether the handler
threw.  On success the ref is updated and, when `navigator.vibrate` exists, a
preview vibration fires. -/
def handleVibrationChange (s : AppState) (key : String) (canVibrate : Bool) :
    AppState × List Effect × Bool :=
  let s1 := { s with vibrationKey := key }
  match VIBRATION_PATTERNS key with
  | none => (s1, [], true)
  | some cfg =>
    ({ s1 with vibrationPatternRef := cfg.pattern },
     (if canVibrate then [Effect.vibrate cfg.pattern] else []), false)

/-- Outcome of `handleGrantPermission` (src/App.tsx lines 149-187). -/
structure GrantOutcome where
  state : AppState
  prompted : Bool
  result : NotificationPermission
  scheduledStart : Bool
  registeredSW : Bool
deriving DecidableEq, Repr

/-- `handleGrantPermission` (src/App.tsx lines 149-187): read
`Notification.permission`; only when it is not already `granted` call
`Notification.requestPermission()` (whose resolution is the `requestResult`
input); mirror the result into state; on `granted` register the service
worker when available and schedule `startNotifications` after 500 ms. -/
def handleGrantPermission (s : AppState) (requestResult : NotificationPermission)
    (swAvailable : Bool) : GrantOutcome :=
  let r0 := s.permission
  if r0 = .granted then
    { state := { s with permission := r0 }
      prompted := false
      result := r0
      scheduledStart := true
      registeredSW := swAvailable }
  else
    { state := { s with permission := requestResult }
      prompted := true
      result := requestResult
      scheduledStart := requestResult = .granted
      registeredSW := requestResult = .granted && swAvailable }

/-- The user/timer events that can occur after load, for trace properties.
None of them touches the platform permission state. -/
inductive Event where
  | start (inp : CycleInput) (freshId : Nat)
  | stop
  | tick (inp : CycleInput)
  | changePattern (key : String) (canVibrate : Bool)

/-- One event step: `start`/`stop` run the handlers, `tick` runs the interval
callback (`sendRandomNotification`) when an interval is registered,
`changePattern` runs `handleVibrationChange`. -/
def stepE (s : AppState) (e : Event) : AppState × List Effect :=
  match e with
  | .start inp freshId => startNotifications s inp freshId
  | .stop => (stopNotifications s, [])
  | .tick inp => if s.intervalRef.isSome then sendRandomNotification s inp else (s, [])
  | .changePattern key cv =>
    let r := handleVibrationChange s key cv
    (r.1, r.2.1)

/-- Run a sequence of events, collecting all emitted platform effects. -/
def runEvents (s : AppState) (es : List Event) : AppState × List Effect :=
  match es with
  | [] => (s, [])
  | e :: rest =>
    let r := stepE s e
    let r2 := runEvents r.1 rest
    (r2.1, r.2 ++ r2.2)

/-- The invariant tying the explicit platform timer list to `intervalRef`:
the only live interval is the one the ref points to, with the 2000 ms
period. -/
def timersConsistent (s : AppState) : Prop :=
  s.activeTimers = (match s.intervalRef with
                    | some id => [⟨id, INTERVAL_MS⟩]
                    | none => [])

/-! ### Sample concrete data used by witnesses -/

/-- A concrete cycle input with a valid random sample. -/
def sampleInput : CycleInput :=
  { rand := 1 / 3
    nowId := 7
    nowTime := "12:00:00"
    swAvailable := true
    deliveryThrows := false
    canVibrate := true }

/-- A concrete 50-entry log. -/
def fullLog : List LogEntry := List.replicate 50 ⟨0, "x", "t"⟩

/-- A concrete state whose log already holds exactly 50 entries. -/
def fullState : AppState := { initialState with logs := fullLog }

/-! ### C1 -/

/-- C1: after every delivery cycle's append the Alert Log holds at most 50
entries, the new entry is at the front, the previous entries follow in their
prior order (the tail is the 49-entry prefix of the old log), and when the
log already held 50 entries the evicted entry is the oldest (the last one:
the new log is the new entry followed by all but the last old entry). -/
theorem alertLog_bounded_append (s : AppState) (inp : CycleInput) :
    (sendRandomNotification s inp).1.logs.length ≤ 50 ∧
    (sendRandomNotification s inp).1.logs = mkLogEntry inp :: s.logs.take 49 ∧
    (s.logs.length = 50 →
      (sendRandomNotification s inp).1.logs = mkLogEntry inp :: s.logs.dropLast) := by
  have hlogs : (sendRandomNotification s inp).1.logs = mkLogEntry inp :: s.logs.take 49 := rfl
  refine ⟨?_, hlogs, ?_⟩
  · have h := List.length_take 49 s.logs
    rw [hlogs, List.length_cons]
    omega
  · intro h50
    have ht : s.logs.take 49 = s.logs.dropLast := by
      rw [List.dropLast_eq_take, h50]
    rw [hlogs, ht]

/-- Witness for C1 at a concrete 50-entry log. -/
theorem alertLog_bounded_append_witness :
    fullState.logs.length = 50 ∧
    (sendRandomNotification fullState sampleInput).1.logs =
      mkLogEntry sampleInput :: fullState.logs.dropLast := by
  have h : fullState.logs.length = 50 := by
    simp [fullState, fullLog, initialState]
  exact ⟨h, (alertLog_bounded_append fullState sampleInput).2.2 h⟩

/-! ### C2 -/

/-- C2: every run of the delivery cycle appends exactly one entry, whose
message is the picked catalog entry's title, a colon and a space, then its
body.  The statement quantifies over every state and every cycle input, so it
holds whatever the permission value (`granted`, `default` or `denied`) and
whether or not the platform delivery call throws. -/
theorem cycle_always_logs_attempt (s : AppState) (inp : CycleInput)
    (h0 : 0 ≤ inp.rand) (h1 : inp.rand < 1) :
    pickedContent inp.rand ∈ NOTIFICATION_MESSAGES ∧
    (sendRandomNotification s inp).1.logs =
      { id := inp.nowId
        message := (pickedContent inp.rand).title ++ ": " ++ (pickedContent inp.rand).body
        time := inp.nowTime } :: s.logs.take 49 ∧
    (sendRandomNotification s inp).1.logs.length = min 49 s.logs.length + 1 := by
  have hL : NOTIFICATION_MESSAGES.length = 12 := rfl
  have hnn : (0 : ℤ) ≤ pickIdx inp.rand := by
    have : (0 : ℚ) ≤ inp.rand * (NOTIFICATION_MESSAGES.length : ℚ) := by
      have := mul_le_mul_of_nonneg_right h0
        (show (0 : ℚ) ≤ (NOTIFICATION_MESSAGES.length : ℚ) by positivity)
      simpa using this
    exact Int.floor_nonneg.mpr this
  have hlt : pickIdx inp.rand < (NOTIFICATION_MESSAGES.length : ℤ) := by
    refine Int.floor_lt.mpr ?_
    have h12 : (0 : ℚ) < (NOTIFICATION_MESSAGES.length : ℚ) := by rw [hL]; norm_num
    calc inp.rand * (NOTIFICATION_MESSAGES.length : ℚ)
        < 1 * (NOTIFICATION_MESSAGES.length : ℚ) := by
          exact mul_lt_mul_of_pos_right h1 h12
      _ = ((NOTIFICATION_MESSAGES.length : ℤ) : ℚ) := by push_cast; ring
  have hidx : (pickIdx inp.rand).toNat < NOTIFICATION_MESSAGES.length := by
    omega
  refine ⟨?_, rfl, ?_⟩
  · have : pickedContent inp.rand =
        NOTIFICATION_MESSAGES[(pickIdx inp.rand).toNat] := by
      rw [pickedContent]
      exact List.getD_eq_getElem _ _ hidx
    rw [this]
    exact List.getElem_mem hidx
  · have h := List.length_take 49 s.logs
    have hlogs : (sendRandomNotification s inp).1.logs =
        mkLogEntry inp :: s.logs.take 49 := rfl
    rw [hlogs, List.length_cons]
    omega

/-- Witness for C2 at a concrete input with `rand = 1/3`. -/
theorem cycle_always_logs_attempt_witness :
    (0 : ℚ) ≤ sampleInput.rand ∧ sampleInput.rand < 1 ∧
    (pickedContent sampleInput.rand ∈ NOTIFICATION_MESSAGES ∧
     (sendRandomNotification initialState sampleInput).1.logs =
       { id := sampleInput.nowId
         message := (pickedContent sampleInput.rand).title ++ ": " ++
           (pickedContent sampleInput.rand).body
         time := sampleInput.nowTime } :: initialState.logs.take 49 ∧
     (sendRandomNotification initialState sampleInput).1.logs.length =
       min 49 initialState.logs.length + 1) := by
  refine ⟨by norm_num [sampleInput], by norm_num [sampleInput], ?_⟩
  exact cycle_always_logs_attempt initialState sampleInput
    (by norm_num [sampleInput]) (by norm_num [sampleInput])

/-! ### C3 -/

/-- C3: the picked index always lies in `[0, 12)` for any random sample in
`[0, 1)`, and selection is uniform: index `i` is picked exactly when the
sample falls in `[i/12, (i+1)/12)`, and all twelve of those cells have the
same width `1/12` — so a uniform random source selects each catalog entry
with equal probability. -/
theorem pick_uniform_over_catalog :
    (∀ r : ℚ, 0 ≤ r → r < 1 →
      0 ≤ pickIdx r ∧ pickIdx r < NOTIFICATION_MESSAGES.length) ∧
    (∀ i : ℕ, i < NOTIFICATION_MESSAGES.length → ∀ r : ℚ, 0 ≤ r → r < 1 →
      (pickIdx r = i ↔ (i : ℚ) / 12 ≤ r ∧ r < ((i : ℚ) + 1) / 12)) ∧
    (∀ i : ℕ, i < NOTIFICATION_MESSAGES.length →
      ((i : ℚ) + 1) / 12 - (i : ℚ) / 12 = 1 / 12) := by
  have hL : NOTIFICATION_MESSAGES.length = 12 := rfl
  have hcast : (NOTIFICATION_MESSAGES.length : ℚ) = 12 := by rw [hL]; norm_num
  refine ⟨?_, ?_, ?_⟩
  · intro r h0 h1
    constructor
    · exact Int.floor_nonneg.mpr (by positivity)
    · rw [pickIdx, hcast]
      refine Int.floor_lt.mpr ?_
      push_cast [hL]
      nlinarith
  · intro i hi r h0 h1
    rw [pickIdx, hcast, Int.floor_eq_iff]
    push_cast
    constructor
    · rintro ⟨ha, hb⟩
      constructor <;> linarith
    · rintro ⟨ha, hb⟩
      constructor <;> linarith
  · intro i _
    ring

/-- Witness for C3 at the concrete sample `r = 1/3` and cell `i = 4`. -/
theorem pick_uniform_over_catalog_witness :
    (0 ≤ pickIdx (1 / 3) ∧ pickIdx (1 / 3) < NOTIFICATION_MESSAGES.length) ∧
    (pickIdx (1 / 3) = 4 ↔ ((4 : ℕ) : ℚ) / 12 ≤ 1 / 3 ∧
      (1 : ℚ) / 3 < (((4 : ℕ) : ℚ) + 1) / 12) := by
  constructor
  · exact pick_uniform_over_catalog.1 (1 / 3) (by norm_num) (by norm_num)
  · exact pick_uniform_over_catalog.2.1 4 (by decide) (1 / 3)
      (by norm_num) (by norm_num)

/-! ### C4 -/

/-- A concrete state with one live interval, as after a previous `start`. -/
def runningState : AppState :=
  { initialState with isRunning := true
                      intervalRef := some 3
                      activeTimers := [⟨3, INTERVAL_MS⟩] }

/-- C4: after any `startNotifications`, in particular one issued while a
periodic task is already active, exactly one periodic task is live (the fresh
one, with the 2000 ms period), `isRunning` is set, one delivery cycle has run
immediately (its entry is at the head of the log and its effects are the
whole output), and the task stays scheduled until `stopNotifications` cancels
it. -/
theorem start_exactly_one_periodic_task (s : AppState) (inp : CycleInput)
    (freshId : Nat) (hc : timersConsistent s) :
    (startNotifications s inp freshId).1.activeTimers = [⟨freshId, INTERVAL_MS⟩] ∧
    (startNotifications s inp freshId).1.intervalRef = some freshId ∧
    (startNotifications s inp freshId).1.isRunning = true ∧
    timersConsistent (startNotifications s inp freshId).1 ∧
    (startNotifications s inp freshId).1.logs = mkLogEntry inp :: s.logs.take 49 ∧
    (startNotifications s inp freshId).2 =
      cycleFinish s ⟨pickedContent inp.rand, s.vibrationPatternRef⟩ inp ∧
    INTERVAL_MS = 2000 ∧
    (stopNotifications (startNotifications s inp freshId).1).activeTimers = [] := by
  rw [timersConsistent] at hc
  rcases hir : s.intervalRef with _ | id <;> rw [hir] at hc <;>
    refine ⟨?_, ?_, ?_, ?_, ?_, ?_, rfl, ?_⟩ <;>
    simp [startNotifications, stopNotifications, sendRandomNotification, cycleBegin,
      cycleFinish, clearInterval, timersConsistent, hir, hc]

/-- Witness for C4: starting again from a state that already has a live
interval (id 3) leaves exactly the fresh timer (id 9) live. -/
theorem start_exactly_one_periodic_task_witness :
    timersConsistent runningState ∧
    (startNotifications runningState sampleInput 9).1.activeTimers =
      [⟨9, INTERVAL_MS⟩] ∧
    (startNotifications runningState sampleInput 9).1.intervalRef = some 9 := by
  have hc : timersConsistent runningState := by
    simp [timersConsistent, runningState, initialState]
  have h := start_exactly_one_periodic_task runningState sampleInput 9 hc
  exact ⟨hc, h.1, h.2.1⟩

/-! ### C5 -/

/-- No event changes the platform permission state. -/
theorem stepE_permission (s : AppState) (e : Event) :
    (stepE s e).1.permission = s.permission := by
  cases e with
  | start inp freshId =>
    rcases hir : s.intervalRef with _ | id <;>
      simp [stepE, startNotifications, sendRandomNotification, cycleBegin, hir]
  | stop =>
    rcases hir : s.intervalRef with _ | id <;> simp [stepE, stopNotifications, hir]
  | tick inp =>
    rcases hir : s.intervalRef with _ | id <;>
      simp [stepE, sendRandomNotification, cycleBegin, hir]
  | changePattern key cv =>
    rcases hk : VIBRATION_PATTERNS key with _ | cfg <;>
      simp [stepE, handleVibrationChange, hk]

/-- When permission is not `granted`, a single step emits no delivery
attempt: the cycle returns before any notification call, and a pattern change
emits at most a vibration. -/
theorem stepE_no_delivery (s : AppState) (e : Event)
    (h : s.permission ≠ .granted) :
    (stepE s e).2.filter Effect.isDeliveryAttempt = [] := by
  cases e with
  | start inp freshId =>
    rcases hir : s.intervalRef with _ | id <;>
      simp [stepE, startNotifications, sendRandomNotification, cycleBegin,
        cycleFinish, hir, h]
  | stop => rfl
  | tick inp =>
    rcases hir : s.intervalRef with _ | id <;>
      simp [stepE, sendRandomNotification, cycleBegin, cycleFinish, hir, h]
  | changePattern key cv =>
    rcases hk : VIBRATION_PATTERNS key with _ | cfg <;>
      cases cv <;>
        simp [stepE, handleVibrationChange, hk, Effect.isDeliveryAttempt]

/-- C5: once the permission state is `denied`, no platform delivery attempt
(notification creation or show-notification request) occurs in any later
event sequence — including sequences containing further `start` events. -/
theorem denied_no_delivery_attempts (s : AppState) (es : List Event)
    (h : s.permission = .denied) :
    (runEvents s es).2.filter Effect.isDeliveryAttempt = [] := by
  induction es generalizing s with
  | nil => rfl
  | cons e rest ih =>
    rw [runEvents, List.filter_append]
    rw [stepE_no_delivery s e (by rw [h]; intro hc; cases hc)]
    rw [ih (stepE s e).1 (by rw [stepE_permission, h])]
    rfl

/-- A concrete state whose permission is `denied`. -/
def deniedState : AppState := { initialState with permission := .denied }

/-- Witness for C5: from a denied state, a run containing two `start`s, a
tick and a pattern change emits no delivery attempt. -/
theorem denied_no_delivery_attempts_witness :
    deniedState.permission = .denied ∧
    (runEvents deniedState [.start sampleInput 5, .tick sampleInput,
      .changePattern "short" true, .start sampleInput 6,
      .stop]).2.filter Effect.isDeliveryAttempt = [] :=
  ⟨rfl, denied_no_delivery_attempts deniedState _ rfl⟩

/-! ### C6 -/

/-- C6: selecting a new vibration pattern does not restart the loop (the
interval and running flag are untouched); every cycle beginning after the
change snapshots the new pattern, a cycle reads the pattern current at its
own start (not a `start()`-time snapshot), and a cycle already in flight is
unaffected by the change: its delivery uses only the snapshot it took at its
start — every vibrate effect and every notification's `vibrate` option equal
the snapshot pattern. -/
theorem pattern_change_takes_effect_next_cycle (s : AppState) (key : String)
    (cfg : VibrationConfig) (hk : VIBRATION_PATTERNS key = some cfg) (cv : Bool) :
    ((handleVibrationChange s key cv).1.intervalRef = s.intervalRef ∧
     (handleVibrationChange s key cv).1.activeTimers = s.activeTimers ∧
     (handleVibrationChange s key cv).1.isRunning = s.isRunning) ∧
    (∀ inp, (cycleBegin (handleVibrationChange s key cv).1 inp).2.currentPattern =
      cfg.pattern) ∧
    (∀ s' inp, (cycleBegin s' inp).2.currentPattern = s'.vibrationPatternRef) ∧
    (∀ snap inp, cycleFinish (handleVibrationChange s key cv).1 snap inp =
      cycleFinish s snap inp) ∧
    (∀ s' snap inp p, Effect.vibrate p ∈ cycleFinish s' snap inp →
      p = snap.currentPattern) ∧
    (∀ s' snap inp t o,
      Effect.swShow t o ∈ cycleFinish s' snap inp ∨
        Effect.pageNew t o ∈ cycleFinish s' snap inp →
      o.vibrate = snap.currentPattern) := by
  refine ⟨⟨?_, ?_, ?_⟩, ?_, ?_, ?_, ?_, ?_⟩
  · simp [handleVibrationChange, hk]
  · simp [handleVibrationChange, hk]
  · simp [handleVibrationChange, hk]
  · intro inp
    simp [cycleBegin, handleVibrationChange, hk]
  · intro s' inp
    rfl
  · intro snap inp
    simp [cycleFinish, handleVibrationChange, hk]
  · intro s' snap inp p hp
    rw [cycleFinish] at hp
    split at hp
    · split at hp <;> split at hp <;> simp_all [buildOptions]
    · simp at hp
  · intro s' snap inp t o ho
    rw [cycleFinish] at ho
    rcases ho with ho | ho <;>
    · split at ho
      · split at ho <;> split at ho <;> simp_all [buildOptions]
      · simp at ho

/-- Witness for C6 at the key "short" from the initial state. -/
theorem pattern_change_takes_effect_next_cycle_witness :
    (handleVibrationChange initialState "short" true).1.intervalRef =
      initialState.intervalRef ∧
    (cycleBegin (handleVibrationChange initialState "short" true).1
      sampleInput).2.currentPattern = [100, 50, 100] := by
  have h := pattern_change_takes_effect_next_cycle initialState "short"
    ⟨"Short & Sharp", [100, 50, 100]⟩ (by decide) true
  exact ⟨h.1.1, h.2.1 sampleInput⟩

/-! ### C7 -/

/-- C7: invoking the permission request handler while the state is already
`granted` returns `granted`, issues no platform prompt
(`Notification.requestPermission()` is not called), and leaves the state
unchanged — whatever a prompt would have resolved to. -/
theorem grant_idempotent_when_granted (s : AppState)
    (requestResult : NotificationPermission) (swAvailable : Bool)
    (h : s.permission = .granted) :
    (handleGrantPermission s requestResult swAvailable).prompted = false ∧
    (handleGrantPermission s requestResult swAvailable).result = .granted ∧
    (handleGrantPermission s requestResult swAvailable).state.permission = .granted ∧
    (handleGrantPermission s requestResult swAvailable).state = s := by
  have h4 : (handleGrantPermission s requestResult swAvailable).state = s := by
    simp only [handleGrantPermission]
    split
    · rfl
    · exact absurd h (by assumption)
  refine ⟨?_, ?_, ?_, h4⟩ <;> simp [handleGrantPermission, h]

/-- A concrete state whose permission is already `granted`. -/
def grantedState : AppState := { initialState with permission := .granted }

/-- Witness for C7: re-requesting from a granted state, even if a prompt
would have resolved `denied`, prompts nobody and returns `granted`. -/
theorem grant_idempotent_when_granted_witness :
    (handleGrantPermission grantedState .denied true).prompted = false ∧
    (handleGrantPermission grantedState .denied true).result = .granted ∧
    (handleGrantPermission grantedState .denied true).state = grantedState := by
  have h := grant_idempotent_when_granted grantedState .denied true rfl
  exact ⟨h.1, h.2.1, h.2.2.2⟩

/-! ### C8 -/

/-- C8: `stopNotifications` clears the running flag and cancels the periodic
task; composed with itself it equals itself; on an already-stopped state (no
registered interval, flag already down) it is the identity; and it never
touches the permission, log, or vibration state. -/
theorem stop_noop_when_stopped (s : AppState) :
    stopNotifications (stopNotifications s) = stopNotifications s ∧
    (stopNotifications s).isRunning = false ∧
    (stopNotifications s).intervalRef = none ∧
    (timersConsistent s → (stopNotifications s).activeTimers = []) ∧
    (s.intervalRef = none → s.isRunning = false → stopNotifications s = s) ∧
    ((stopNotifications s).permission = s.permission ∧
     (stopNotifications s).logs = s.logs ∧
     (stopNotifications s).vibrationKey = s.vibrationKey ∧
     (stopNotifications s).vibrationPatternRef = s.vibrationPatternRef) := by
  obtain ⟨p, run, lg, vk, ir, vpr, tms⟩ := s
  rcases ir with _ | id <;>
    simp [stopNotifications, timersConsistent, clearInterval]
  intro hc
  subst hc
  simp

/-- Witness for C8: stopping the initial (already stopped) state changes
nothing, and stopping the running state twice equals stopping it once. -/
theorem stop_noop_when_stopped_witness :
    stopNotifications initialState = initialState ∧
    stopNotifications (stopNotifications runningState) =
      stopNotifications runningState := by
  refine ⟨(stop_noop_when_stopped initialState).2.2.2.2.1 rfl rfl, ?_⟩
  exact (stop_noop_when_stopped runningState).1

/-! ### C9 -/

/-- C9: `startNotifications` performs no permission check: in any permission
state it raises the running flag, registers the fresh interval, leaves the
permission untouched, and its immediate cycle appends a log entry; but its
output effects are empty exactly when permission is not `granted` — the gate
lives inside the delivery cycle, not in `start`. -/
theorem start_has_no_permission_gate (s : AppState) (inp : CycleInput)
    (freshId : Nat) :
    (startNotifications s inp freshId).1.isRunning = true ∧
    (startNotifications s inp freshId).1.intervalRef = some freshId ∧
    (startNotifications s inp freshId).1.permission = s.permission ∧
    (startNotifications s inp freshId).1.logs = mkLogEntry inp :: s.logs.take 49 ∧
    (s.permission ≠ .granted → (startNotifications s inp freshId).2 = []) ∧
    (s.permission = .granted → (startNotifications s inp freshId).2 ≠ []) := by
  have heff : (startNotifications s inp freshId).2 =
      cycleFinish s ⟨pickedContent inp.rand, s.vibrationPatternRef⟩ inp := by
    rcases hir : s.intervalRef with _ | id <;>
      simp [startNotifications, sendRandomNotification, cycleBegin, cycleFinish, hir]
  refine ⟨?_, ?_, ?_, ?_, ?_, ?_⟩
  · rcases hir : s.intervalRef with _ | id <;>
      simp [startNotifications, sendRandomNotification, cycleBegin, hir]
  · rcases hir : s.intervalRef with _ | id <;>
      simp [startNotifications, sendRandomNotification, cycleBegin, hir]
  · rcases hir : s.intervalRef with _ | id <;>
      simp [startNotifications, sendRandomNotification, cycleBegin, hir]
  · rcases hir : s.intervalRef with _ | id <;>
      simp [startNotifications, sendRandomNotification, cycleBegin, hir]
  · intro h
    rw [heff, cycleFinish, if_neg h]
  · intro h
    rw [heff, cycleFinish, if_pos h]
    split <;> split <;> simp

/-- Witness for C9: starting from the denied state still raises the flag,
registers interval 4 and logs the attempt, yet emits no effects. -/
theorem start_has_no_permission_gate_witness :
    (startNotifications deniedState sampleInput 4).1.isRunning = true ∧
    (startNotifications deniedState sampleInput 4).1.intervalRef = some 4 ∧
    (startNotifications deniedState sampleInput 4).1.logs =
      mkLogEntry sampleInput :: deniedState.logs.take 49 ∧
    (startNotifications deniedState sampleInput 4).2 = [] := by
  have h := start_has_no_permission_gate deniedState sampleInput 4
  exact ⟨h.1, h.2.1, h.2.2.2.1, h.2.2.2.2.1 (by decide)⟩

/-! ### C10 -/

/-- C10: changing the vibration pattern is safe exactly for the six keys of
the pattern table: for each present key the handler sets the key, installs
that key's pulse sequence as the current pattern and fires a one-shot preview
vibration with it; for any absent key it faults (TypeError reading `.pattern`
of `undefined`) after having set only the key. -/
theorem vibration_change_safety (s : AppState) (key : String) :
    (VIBRATION_PATTERNS key ≠ none ↔
      key ∈ ["default", "short", "heartbeat", "urgent", "long", "slow"]) ∧
    (∀ cfg, VIBRATION_PATTERNS key = some cfg →
      handleVibrationChange s key true =
        ({ s with vibrationKey := key, vibrationPatternRef := cfg.pattern },
         [Effect.vibrate cfg.pattern], false)) ∧
    (VIBRATION_PATTERNS key = none →
      handleVibrationChange s key true = ({ s with vibrationKey := key }, [], true)) := by
  refine ⟨?_, ?_, ?_⟩
  · rw [VIBRATION_PATTERNS]
    split_ifs <;> simp_all
  · intro cfg hk
    simp [handleVibrationChange, hk]
  · intro hk
    simp [handleVibrationChange, hk]

/-- Witness for C10: the present key "heartbeat" updates the pattern and
previews it; the absent key "nope" faults after setting only the key. -/
theorem vibration_change_safety_witness :
    VIBRATION_PATTERNS "heartbeat" =
      some ⟨"Heartbeat", [100, 100, 100, 400, 100, 100, 100]⟩ ∧
    handleVibrationChange initialState "heartbeat" true =
      ({ initialState with vibrationKey := "heartbeat"
                           vibrationPatternRef := [100, 100, 100, 400, 100, 100, 100] },
       [Effect.vibrate [100, 100, 100, 400, 100, 100, 100]], false) ∧
    VIBRATION_PATTERNS "nope" = none ∧
    handleVibrationChange initialState "nope" true =
      ({ initialState with vibrationKey := "nope" }, [], true) := by
  have hk : VIBRATION_PATTERNS "heartbeat" =
      some ⟨"Heartbeat", [100, 100, 100, 400, 100, 100, 100]⟩ := by decide
  have hn : VIBRATION_PATTERNS "nope" = none := by decide
  exact ⟨hk, (vibration_change_safety initialState "heartbeat").2.1 _ hk,
    hn, (vibration_change_safety initialState "nope").2.2 hn⟩

end Notify
